import Mathlib

/-! Verification of the treescan rule-based analysis and scoring engine
(`src/analyzer.rs`).

The Rust code is shallowly embedded:
* `f64` values are modelled by `ℚ`; all constants of the scoring engine
  (10.0, 0.3, 0.9, -3.0, -1.5, -0.4, -0.2, the rating-band bounds) are
  decimal literals, hence exact in both models.
* `f64::round` (round half away from zero) is `roundAway`; the engine only
  rounds nonnegative values (the score is clamped at 0 first).
* source text is a `String`, sliced at char positions (the engine's byte
  offsets; identical for ASCII sources), `str::contains` is `containsChars`
  on `List Char`, `str::lines().count()` is `rustLinesCount`.
* tree-sitter is external to the core (spec §1, §6): a syntax-tree node is
  modelled by the projections the analyzer reads (`start_position().row`,
  `start_position().column`, `start_byte`, `end_byte`, `parent().kind()`),
  and the query engine by a `Grammar` oracle mapping a pattern-query string
  either to the list of captured nodes (in match order) or to `none` for a
  query-compilation failure (`Query::new` returning `Err`).
-/

namespace Treescan

/-- Rust `str::starts_with` on char lists: `startsWithChars hay needle`. -/
def startsWithChars : List Char → List Char → Bool
  | _, [] => true
  | [], _ :: _ => false
  | a :: as, b :: bs => a == b && startsWithChars as bs

/-- Rust `str::contains` on char lists: `containsChars hay needle`. -/
def containsChars : List Char → List Char → Bool
  | [], needle => startsWithChars [] needle
  | a :: rest, needle => startsWithChars (a :: rest) needle || containsChars rest needle

/-- Helper for `rustLinesCount`, recursing over the characters. -/
def linesCountAux : List Char → Nat
  | [] => 0
  | [c] => if c = '\n' then 1 else 1
  | c :: rest => (if c = '\n' then 1 else 0) + linesCountAux rest

/-- Rust `str::lines().count()`: the number of `'\n'`-terminated segments,
plus one for a nonempty unterminated final segment. -/
def rustLinesCount (s : String) : Nat := linesCountAux s.data

/-- Rust `f64::round`: round half away from zero. Ties at `.5` go away from
zero, as in `f64::round` (not to even). -/
def roundAway (x : ℚ) : ℚ := if 0 ≤ x then (⌊x + 1/2⌋ : ℚ) else -(⌊-x + 1/2⌋ : ℚ)

/-- Rust `(x * 10.0).round() / 10.0`: round to one decimal place. -/
def roundTenth (x : ℚ) : ℚ := roundAway (x * 10) / 10

/-- Embeds `enum Severity` from `src/analyzer.rs`. -/
inductive Severity
  | Error
  | Warning
  | Info
  | Style
deriving DecidableEq, Repr

/-- Embeds `Severity::base_score_impact` from `src/analyzer.rs`. -/
def Severity.base_score_impact : Severity → ℚ
  | .Error => -3.0
  | .Warning => -1.5
  | .Info => -0.4
  | .Style => -0.2

/-- Embeds `struct AnalysisRule` from `src/analyzer.rs`. -/
structure AnalysisRule where
  name : String
  query : String
  severity : Severity
  message_template : String
  suggestion : Option String
  weight_multiplier : ℚ

/-- Embeds `struct AnalysisResult` (a Finding) from `src/analyzer.rs`. -/
structure AnalysisResult where
  rule_name : String
  severity : Severity
  message : String
  line : Nat
  column : Nat
  text : String
  suggestion : Option String
  score_impact : ℚ
deriving DecidableEq

/-- The parent of a matched node, as read by the analyzer: only its kind. -/
structure ParentNode where
  kind : String
deriving DecidableEq

/-- A matched syntax-tree node, reduced to the projections the analyzer
reads: `start_position().row/.column`, `end_position().row`, `start_byte`,
`end_byte` and the structural parent. Rows and columns are 0-based, as in
tree-sitter. -/
structure Node where
  start_row : Nat
  start_col : Nat
  end_row : Nat
  start_byte : Nat
  end_byte : Nat
  parent : Option ParentNode
deriving DecidableEq

/-- Rust `Node::utf8_text`: the source slice spanned by the node. -/
def node_text (node : Node) (source_code : String) : String :=
  String.mk ((source_code.data.drop node.start_byte).take (node.end_byte - node.start_byte))

/-- Embeds `CodeAnalyzer::is_unchecked_go_error` from `src/analyzer.rs`:
only a match whose parent is an `assignment_statement` is inspected; its
textual window `[start_byte, min(end_byte + 200, len))` must contain
neither error-checking idiom for the match to be flagged. No parent, or a
parent of another kind, flags the match. -/
def is_unchecked_go_error (node : Node) (source_code : String) : Bool :=
  match node.parent with
  | some parent =>
      if parent.kind = "assignment_statement" then
        let text_around := (source_code.data.drop node.start_byte).take
          (min (node.end_byte + 200) source_code.data.length - node.start_byte)
        !containsChars text_around ("if err != nil".data)
          && !containsChars text_around ("if error != nil".data)
      else true
  | none => true

/-- Embeds `CodeAnalyzer::should_report` from `src/analyzer.rs`. -/
def should_report (rule_name : String) (node : Node) (source_code : String) : Bool :=
  match rule_name with
  | "large_function" => decide (50 < node.end_row - node.start_row)
  | "missing_docs" => containsChars (source_code.data.take node.start_byte) ("pub fn".data)
  | "go_missing_error_check" => is_unchecked_go_error node source_code
  | "go_large_function" => decide (40 < node.end_row - node.start_row)
  | _ => true

/-- The external query engine (spec §6): compiling and running one rule's
pattern query against the parsed tree of the current source, yielding the
captured nodes in match order, or `none` when the query does not compile
against the grammar (`Query::new` returns `Err`). -/
structure Grammar where
  compileQuery : String → Option (List Node)

/-- The Finding built for one accepted capture in `CodeAnalyzer::analyze`:
1-based line/column from the node start, text from the node's source slice,
`score_impact = base_score_impact * weight_multiplier`. -/
def mkFinding (rule : AnalysisRule) (node : Node) (source_code : String) : AnalysisResult :=
  { rule_name := rule.name
    severity := rule.severity
    message := rule.message_template
    line := node.start_row + 1
    column := node.start_col + 1
    text := node_text node source_code
    suggestion := rule.suggestion
    score_impact := rule.severity.base_score_impact * rule.weight_multiplier }

/-- The per-rule body of the loop in `CodeAnalyzer::analyze`: keep the
captures accepted by `should_report`, build a Finding for each. -/
def ruleFindings (rule : AnalysisRule) (nodes : List Node) (source_code : String) :
    List AnalysisResult :=
  nodes.filterMap (fun node =>
    if should_report rule.name node source_code then some (mkFinding rule node source_code)
    else none)

/-- Embeds `CodeAnalyzer::analyze` from `src/analyzer.rs`: for each rule in order,
compile its query (`Query::new(language, &rule.query)?` — a failure aborts
the whole run via `?`, discarding all accumulated results), run it, filter
captures through `should_report`, and append the Findings. -/
def analyze (g : Grammar) (source_code : String) : List AnalysisRule →
    Except String (List AnalysisResult)
  | [] => Except.ok []
  | rule :: rest =>
      match g.compileQuery rule.query with
      | none => Except.error ("query compile failure: " ++ rule.name)
      | some nodes =>
          match analyze g source_code rest with
          | Except.error e => Except.error e
          | Except.ok more => Except.ok (ruleFindings rule nodes source_code ++ more)

/-- Embeds `struct ScoreBreakdown` from `src/analyzer.rs`. -/
structure ScoreBreakdown where
  errors : Nat
  warnings : Nat
  info_issues : Nat
  style_issues : Nat
  error_deduction : ℚ
  warning_deduction : ℚ
  info_deduction : ℚ
  style_deduction : ℚ
  size_bonus : ℚ
deriving DecidableEq

/-- The all-zero breakdown `calculate_score` starts from. -/
def emptyBreakdown : ScoreBreakdown :=
  { errors := 0, warnings := 0, info_issues := 0, style_issues := 0
    error_deduction := 0, warning_deduction := 0, info_deduction := 0
    style_deduction := 0, size_bonus := 0 }

/-- Embeds `struct CodeScore` from `src/analyzer.rs`. -/
structure CodeScore where
  overall_score : ℚ
  max_score : ℚ
  total_issues : Nat
  breakdown : ScoreBreakdown
  rating : String
  summary : String
deriving DecidableEq

/-- One step of the counting loop in `calculate_score`: bucket a Finding by
severity, adding `|score_impact|` to that bucket's deduction. -/
def tallyFinding (b : ScoreBreakdown) (r : AnalysisResult) : ScoreBreakdown :=
  match r.severity with
  | .Error =>
      { b with errors := b.errors + 1
               error_deduction := b.error_deduction + |r.score_impact| }
  | .Warning =>
      { b with warnings := b.warnings + 1
               warning_deduction := b.warning_deduction + |r.score_impact| }
  | .Info =>
      { b with info_issues := b.info_issues + 1
               info_deduction := b.info_deduction + |r.score_impact| }
  | .Style =>
      { b with style_issues := b.style_issues + 1
               style_deduction := b.style_deduction + |r.score_impact| }

/-- Embeds `CodeAnalyzer::get_rating_and_summary` from `src/analyzer.rs`. The
rating is the Rust `match` on closed `f64` range patterns, in source order;
the summary is the first-match-wins ladder on raw breakdown counts. -/
def get_rating_and_summary (score : ℚ) (breakdown : ScoreBreakdown) : String × String :=
  let rating : String :=
    if 9.0 ≤ score ∧ score ≤ 10.0 then "Excellent"
    else if 7.5 ≤ score ∧ score ≤ 8.9 then "Good"
    else if 6.0 ≤ score ∧ score ≤ 7.4 then "Fair"
    else if 4.0 ≤ score ∧ score ≤ 5.9 then "Poor"
    else "Critical"
  let summary : String :=
    if 0 < breakdown.errors then
      "Code has " ++ toString breakdown.errors ++ " critical errors that need immediate attention"
    else if 5 < breakdown.warnings then
      "Multiple warnings detected - consider addressing them"
    else if 10 < breakdown.info_issues then
      "Many minor issues found - good opportunity for cleanup"
    else if 9.0 ≤ score then
      "Excellent code quality with minimal issues"
    else if 7.5 ≤ score then
      "Good code quality with room for minor improvements"
    else
      "Code needs improvement in several areas"
  (rating, summary)

/-- Embeds `CodeAnalyzer::calculate_score` from `src/analyzer.rs`. The leniency is
only used in the `200 < line_count` branch, exactly as in the source, where
it also sets `size_bonus` on the breakdown. -/
def calculate_score (results : List AnalysisResult) (source_code : String) : CodeScore :=
  let base_score : ℚ := 10.0
  let line_count := rustLinesCount source_code
  let tallied := results.foldl tallyFinding emptyBreakdown
  let total_deduction := tallied.error_deduction + tallied.warning_deduction
    + tallied.info_deduction + tallied.style_deduction
  let leniency : ℚ := min (((line_count : ℚ) - 200.0) / 1000.0) 0.3
  let breakdown :=
    if 200 < line_count then
      { tallied with
          size_bonus := leniency * (tallied.info_deduction + tallied.style_deduction) }
    else tallied
  let size_factor : ℚ :=
    if 200 < line_count then 1.0 + leniency
    else if line_count < 50 then 0.9
    else 1.0
  let adjusted_deduction := total_deduction / size_factor
  let overall_score := max (base_score - adjusted_deduction) 0.0
  let rounded_score := roundTenth overall_score
  let rs := get_rating_and_summary rounded_score breakdown
  { overall_score := rounded_score
    max_score := base_score
    total_issues := results.length
    breakdown := breakdown
    rating := rs.1
    summary := rs.2 }

/-! Spec-side definitions: written from the specification's words, to be
related to the embedded code by the theorems below. -/

/-- The number of Findings of a given severity (spec §3, Score Breakdown
invariant). -/
def sevCount (sev : Severity) (results : List AnalysisResult) : Nat :=
  (results.filter fun r => r.severity == sev).length

/-- The sum of `|score_impact|` over the Findings of a given severity
(spec §3, Score Breakdown invariant). -/
def sevDeduction (sev : Severity) (results : List AnalysisResult) : ℚ :=
  ((results.filter fun r => r.severity == sev).map fun r => |r.score_impact|).sum

/-- The total deduction: the sum of `|score_impact|` over all Findings,
independently of any bucketing. -/
def specTotal (results : List AnalysisResult) : ℚ :=
  (results.map fun r => |r.score_impact|).sum

/-- The size factor of spec §4.5 step 4, as a function of the line count
alone. -/
def sizeFactorOf (line_count : Nat) : ℚ :=
  if 200 < line_count then 1.0 + min (((line_count : ℚ) - 200.0) / 1000.0) 0.3
  else if line_count < 50 then 0.9
  else 1.0

/-! Helper lemmas. -/

lemma startsWithChars_iff (hay needle : List Char) :
    startsWithChars hay needle = true ↔ ∃ r, hay = needle ++ r := by
  induction needle generalizing hay with
  | nil => simp [startsWithChars]
  | cons b bs ih =>
      cases hay with
      | nil => simp [startsWithChars]
      | cons a as =>
          simp only [startsWithChars, Bool.and_eq_true, beq_iff_eq, ih, List.cons_append,
            List.cons.injEq]
          constructor
          · rintro ⟨rfl, r, rfl⟩
            exact ⟨r, rfl, rfl⟩
          · rintro ⟨r, rfl, rfl⟩
            exact ⟨rfl, r, rfl⟩

lemma containsChars_iff (hay needle : List Char) :
    containsChars hay needle = true ↔ ∃ l r, hay = l ++ needle ++ r := by
  induction hay with
  | nil =>
      simp only [containsChars, startsWithChars_iff]
      constructor
      · rintro ⟨r, hr⟩
        exact ⟨[], r, hr⟩
      · rintro ⟨l, r, hr⟩
        rcases List.append_eq_nil.mp (List.append_eq_nil.mp hr.symm).1 with ⟨rfl, rfl⟩
        exact ⟨r, hr⟩
  | cons a as ih =>
      simp only [containsChars, Bool.or_eq_true, startsWithChars_iff, ih]
      constructor
      · rintro (⟨r, hr⟩ | ⟨l, r, hr⟩)
        · exact ⟨[], r, by simpa using hr⟩
        · exact ⟨a :: l, r, by simp [hr]⟩
      · rintro ⟨l, r, hr⟩
        cases l with
        | nil => exact Or.inl ⟨r, by simpa using hr⟩
        | cons x l' =>
            simp only [List.cons_append, List.cons.injEq] at hr
            exact Or.inr ⟨l', r, hr.2⟩

lemma foldl_tally_spec (results : List AnalysisResult) (b : ScoreBreakdown) :
    results.foldl tallyFinding b =
      { errors := b.errors + sevCount .Error results
        warnings := b.warnings + sevCount .Warning results
        info_issues := b.info_issues + sevCount .Info results
        style_issues := b.style_issues + sevCount .Style results
        error_deduction := b.error_deduction + sevDeduction .Error results
        warning_deduction := b.warning_deduction + sevDeduction .Warning results
        info_deduction := b.info_deduction + sevDeduction .Info results
        style_deduction := b.style_deduction + sevDeduction .Style results
        size_bonus := b.size_bonus } := by
  induction results generalizing b with
  | nil => simp [sevCount, sevDeduction]
  | cons r rest ih =>
      rw [List.foldl_cons, ih]
      cases hr : r.severity <;>
        simp [tallyFinding, hr, sevCount, sevDeduction, List.filter_cons,
          ScoreBreakdown.mk.injEq] <;>
        and_intros <;> ring

lemma sevDeduction_total (results : List AnalysisResult) :
    sevDeduction .Error results + sevDeduction .Warning results
      + sevDeduction .Info results + sevDeduction .Style results = specTotal results := by
  induction results with
  | nil => simp [sevDeduction, specTotal]
  | cons r rest ih =>
      cases hr : r.severity <;>
        simp [sevDeduction, specTotal, List.filter_cons, hr] at ih ⊢ <;>
        linarith

lemma specTotal_nonneg (results : List AnalysisResult) : 0 ≤ specTotal results := by
  refine List.sum_nonneg ?_
  intro x hx
  rcases List.mem_map.mp hx with ⟨r, _, rfl⟩
  exact abs_nonneg _

lemma specTotal_append (results : List AnalysisResult) (f : AnalysisResult) :
    specTotal (results ++ [f]) = specTotal results + |f.score_impact| := by
  simp [specTotal]

lemma sizeFactorOf_pos (lc : Nat) : 0 < sizeFactorOf lc := by
  unfold sizeFactorOf
  split_ifs with h1 h2
  · have h200 : (200 : ℚ) < (lc : ℚ) := by exact_mod_cast h1
    have hmin : (0 : ℚ) ≤ min (((lc : ℚ) - 200.0) / 1000.0) 0.3 :=
      le_min (by norm_num; linarith) (by norm_num)
    norm_num
    linarith
  · norm_num
  · norm_num

lemma overall_score_eq (results : List AnalysisResult) (source : String) :
    (calculate_score results source).overall_score =
      roundTenth (max (10 - specTotal results / sizeFactorOf (rustLinesCount source)) 0) := by
  unfold calculate_score sizeFactorOf
  rw [foldl_tally_spec]
  simp only [emptyBreakdown, Nat.zero_add, zero_add]
  rw [sevDeduction_total]
  norm_num

lemma breakdown_eq (results : List AnalysisResult) (source : String) :
    (calculate_score results source).breakdown =
      { errors := sevCount .Error results
        warnings := sevCount .Warning results
        info_issues := sevCount .Info results
        style_issues := sevCount .Style results
        error_deduction := sevDeduction .Error results
        warning_deduction := sevDeduction .Warning results
        info_deduction := sevDeduction .Info results
        style_deduction := sevDeduction .Style results
        size_bonus :=
          if 200 < rustLinesCount source then
            min (((rustLinesCount source : ℚ) - 200.0) / 1000.0) 0.3
              * (sevDeduction .Info results + sevDeduction .Style results)
          else 0 } := by
  unfold calculate_score
  rw [foldl_tally_spec]
  simp only [emptyBreakdown, Nat.zero_add, zero_add]
  split_ifs with h <;> rfl

lemma roundTenth_mono (x y : ℚ) (hx : 0 ≤ x) (hxy : x ≤ y) :
    roundTenth x ≤ roundTenth y := by
  unfold roundTenth roundAway
  rw [if_pos (by positivity), if_pos (by nlinarith : (0 : ℚ) ≤ y * 10)]
  have hf : ⌊x * 10 + 1/2⌋ ≤ ⌊y * 10 + 1/2⌋ := Int.floor_le_floor (by nlinarith)
  have : ((⌊x * 10 + 1/2⌋ : ℤ) : ℚ) ≤ ((⌊y * 10 + 1/2⌋ : ℤ) : ℚ) := by exact_mod_cast hf
  gcongr

lemma roundTenth_nonneg (x : ℚ) (hx : 0 ≤ x) : 0 ≤ roundTenth x := by
  unfold roundTenth roundAway
  rw [if_pos (by positivity)]
  have : (0 : ℤ) ≤ ⌊x * 10 + 1/2⌋ := Int.floor_nonneg.mpr (by positivity)
  have : (0 : ℚ) ≤ ((⌊x * 10 + 1/2⌋ : ℤ) : ℚ) := by exact_mod_cast this
  positivity

lemma roundTenth_le_ten (x : ℚ) (hx : 0 ≤ x) (hx10 : x ≤ 10) : roundTenth x ≤ 10 := by
  unfold roundTenth roundAway
  rw [if_pos (by positivity)]
  have h1 : ⌊x * 10 + 1/2⌋ ≤ ⌊(201 : ℚ) / 2⌋ := Int.floor_le_floor (by nlinarith)
  have h2 : ⌊(201 : ℚ) / 2⌋ = 100 := by
    apply Int.floor_eq_iff.mpr
    norm_num
  have h3 : ((⌊x * 10 + 1/2⌋ : ℤ) : ℚ) ≤ 100 := by
    exact_mod_cast h1.trans_eq h2
  linarith [h3]

lemma rating_eq (results : List AnalysisResult) (source : String) :
    (calculate_score results source).rating =
      (get_rating_and_summary (calculate_score results source).overall_score
        (calculate_score results source).breakdown).1 := rfl

lemma summary_eq (results : List AnalysisResult) (source : String) :
    (calculate_score results source).summary =
      (get_rating_and_summary (calculate_score results source).overall_score
        (calculate_score results source).breakdown).2 := rfl

/-! Concrete fixtures for the scenario claims and the witnesses. -/

/-- A Finding as produced by the "syntax_error" rule (severity Error at
weight 2.0): `score_impact = -3.0 * 2.0 = -6.0`. -/
def errorFinding : AnalysisResult :=
  { rule_name := "syntax_error", severity := .Error, message := "Syntax error"
    line := 1, column := 1, text := "", suggestion := none
    score_impact := Severity.Error.base_score_impact * 2.0 }

/-- A Finding of severity Warning at weight 1.0: `score_impact = -1.5`. -/
def warnFinding : AnalysisResult :=
  { rule_name := "go_panic_usage", severity := .Warning, message := "Use of panic()"
    line := 1, column := 1, text := "", suggestion := none
    score_impact := Severity.Warning.base_score_impact * 1.0 }

/-- Six Warning Findings (spec §8, second scenario). -/
def sixWarnings : List AnalysisResult :=
  [warnFinding, warnFinding, warnFinding, warnFinding, warnFinding, warnFinding]

/-- Twenty Error Findings (spec §8, clamping boundary). -/
def twentyErrors : List AnalysisResult := List.replicate 20 errorFinding

/-- A 100-line source text: 100 newline-terminated empty lines. -/
def source100 : String := String.mk (List.replicate 100 '\n')

/-- A matched node with no structural parent. -/
def nodeNoParent : Node :=
  { start_row := 0, start_col := 0, end_row := 0, start_byte := 0, end_byte := 0
    parent := none }

/-- A matched node whose start offset is preceded by the text `pub fn `. -/
def docNode : Node :=
  { start_row := 0, start_col := 7, end_row := 0, start_byte := 7, end_byte := 10
    parent := none }

/-- Source text for `docNode`. -/
def docSource : String := "pub fn foo"

/-- A rule used to witness the fatal query-compilation path. -/
def badRule : AnalysisRule :=
  { name := "syntax_error", query := "(ERROR @error", severity := .Error
    message_template := "Syntax error", suggestion := none, weight_multiplier := 2.0 }

/-- A query engine on which every pattern query fails to compile. -/
def failGrammar : Grammar := ⟨fun _ => none⟩

lemma errorFinding_abs : |errorFinding.score_impact| = 6 := by
  rw [show errorFinding.score_impact = -6 by
    norm_num [errorFinding, Severity.base_score_impact]]
  rw [abs_neg]
  exact abs_of_nonneg (by norm_num)

lemma warnFinding_abs : |warnFinding.score_impact| = 3/2 := by
  rw [show warnFinding.score_impact = -(3/2) by
    norm_num [warnFinding, Severity.base_score_impact]]
  rw [abs_neg]
  exact abs_of_nonneg (by norm_num)

/-! The claims. -/

/-- C2: for every rounded overall score `s`, the rating label is chosen by
closed bands evaluated on `s`: `[9.0, 10.0]` gives "Excellent",
`[7.5, 8.9]` gives "Good", `[6.0, 7.4]` gives "Fair", `[4.0, 5.9]` gives
"Poor", and any other value — including the gaps `(5.9, 6.0)` and
`(7.4, 7.5)` and everything below 4.0 — gives "Critical". -/
theorem C2_rating_bands (s : ℚ) (b : ScoreBreakdown) :
    ((9.0 ≤ s ∧ s ≤ 10.0) → (get_rating_and_summary s b).1 = "Excellent")
    ∧ ((7.5 ≤ s ∧ s ≤ 8.9) → (get_rating_and_summary s b).1 = "Good")
    ∧ ((6.0 ≤ s ∧ s ≤ 7.4) → (get_rating_and_summary s b).1 = "Fair")
    ∧ ((4.0 ≤ s ∧ s ≤ 5.9) → (get_rating_and_summary s b).1 = "Poor")
    ∧ (¬(9.0 ≤ s ∧ s ≤ 10.0) → ¬(7.5 ≤ s ∧ s ≤ 8.9) → ¬(6.0 ≤ s ∧ s ≤ 7.4) →
        ¬(4.0 ≤ s ∧ s ≤ 5.9) → (get_rating_and_summary s b).1 = "Critical") := by
  refine ⟨?_, ?_, ?_, ?_, ?_⟩
  · rintro ⟨h1, h2⟩
    simp only [get_rating_and_summary]
    rw [if_pos ⟨h1, h2⟩]
  · rintro ⟨h1, h2⟩
    simp only [get_rating_and_summary]
    rw [if_neg (by rintro ⟨c1, _⟩; norm_num at h2 c1 ⊢; linarith), if_pos ⟨h1, h2⟩]
  · rintro ⟨h1, h2⟩
    simp only [get_rating_and_summary]
    rw [if_neg (by rintro ⟨c1, _⟩; norm_num at h2 c1 ⊢; linarith),
      if_neg (by rintro ⟨c1, _⟩; norm_num at h2 c1 ⊢; linarith), if_pos ⟨h1, h2⟩]
  · rintro ⟨h1, h2⟩
    simp only [get_rating_and_summary]
    rw [if_neg (by rintro ⟨c1, _⟩; norm_num at h2 c1 ⊢; linarith),
      if_neg (by rintro ⟨c1, _⟩; norm_num at h2 c1 ⊢; linarith),
      if_neg (by rintro ⟨c1, _⟩; norm_num at h2 c1 ⊢; linarith), if_pos ⟨h1, h2⟩]
  · intro h1 h2 h3 h4
    simp only [get_rating_and_summary]
    rw [if_neg h1, if_neg h2, if_neg h3, if_neg h4]

/-- Witness for C2: the theorem applied at the concrete score 9.5. -/
theorem C2_rating_bands_witness :
    (get_rating_and_summary 9.5 emptyBreakdown).1 = "Excellent" :=
  (C2_rating_bands 9.5 emptyBreakdown).1 ⟨by norm_num, by norm_num⟩

/-- C7: the unchecked-error match filter is fail-open: a node with no
structural parent, or whose parent is not an `assignment_statement`, is
accepted; when the parent is an assignment, the match is flagged iff the
textual window from the node's start to 200 bytes past its end (truncated
at end of source) contains neither `if err != nil` nor `if error != nil`.
The filter is exactly what `should_report` applies for the
`go_missing_error_check` rule. -/
theorem C7_fail_open (node : Node) (source : String) :
    (node.parent = none → is_unchecked_go_error node source = true)
    ∧ (∀ p : ParentNode, node.parent = some p → p.kind ≠ "assignment_statement" →
        is_unchecked_go_error node source = true)
    ∧ (∀ p : ParentNode, node.parent = some p → p.kind = "assignment_statement" →
        (is_unchecked_go_error node source = true ↔
          ¬(∃ l r, (source.data.drop node.start_byte).take
                (min (node.end_byte + 200) source.data.length - node.start_byte)
              = l ++ ("if err != nil".data) ++ r)
          ∧ ¬(∃ l r, (source.data.drop node.start_byte).take
                (min (node.end_byte + 200) source.data.length - node.start_byte)
              = l ++ ("if error != nil".data) ++ r)))
    ∧ should_report "go_missing_error_check" node source = is_unchecked_go_error node source := by
  refine ⟨?_, ?_, ?_, rfl⟩
  · intro h
    unfold is_unchecked_go_error
    rw [h]
  · intro p hp hk
    unfold is_unchecked_go_error
    rw [hp]
    simp [hk]
  · intro p hp hk
    unfold is_unchecked_go_error
    rw [hp]
    simp only [hk, eq_self_iff_true, if_true, ite_true, Bool.and_eq_true, Bool.not_eq_true']
    constructor
    · rintro ⟨ha, hb⟩
      refine ⟨fun hc => ?_, fun hc => ?_⟩
      · rw [(containsChars_iff _ _).mpr hc] at ha
        exact absurd ha (by simp)
      · rw [(containsChars_iff _ _).mpr hc] at hb
        exact absurd hb (by simp)
    · rintro ⟨ha, hb⟩
      constructor
      · cases hc : containsChars ((source.data.drop node.start_byte).take
            (min (node.end_byte + 200) source.data.length - node.start_byte))
            ("if err != nil".data) with
        | false => rfl
        | true => exact absurd ((containsChars_iff _ _).mp hc) ha
      · cases hc : containsChars ((source.data.drop node.start_byte).take
            (min (node.end_byte + 200) source.data.length - node.start_byte))
            ("if error != nil".data) with
        | false => rfl
        | true => exact absurd ((containsChars_iff _ _).mp hc) hb

/-- Witness for C7: the theorem applied to a node with no parent. -/
theorem C7_fail_open_witness : is_unchecked_go_error nodeNoParent "" = true :=
  (C7_fail_open nodeNoParent "").1 rfl

/-- C9: if any rule's pattern query fails to compile against the grammar,
`analyze` returns an error for the whole run and emits no Finding list,
partial or otherwise. -/
theorem C9_query_failure_fatal (rules : List AnalysisRule) (g : Grammar) (source : String)
    (h : ∃ rule ∈ rules, g.compileQuery rule.query = none) :
    (∃ e, analyze g source rules = Except.error e)
    ∧ ∀ findings : List AnalysisResult, analyze g source rules ≠ Except.ok findings := by
  have herr : ∃ e, analyze g source rules = Except.error e := by
    induction rules with
    | nil =>
        rcases h with ⟨r, hr, _⟩
        exact absurd hr (List.not_mem_nil r)
    | cons rule rest ih =>
        rcases h with ⟨r, hr, hq⟩
        rcases List.mem_cons.mp hr with rfl | hmem
        · exact ⟨_, by unfold analyze; rw [hq]⟩
        · cases hc : g.compileQuery rule.query with
          | none => exact ⟨_, by unfold analyze; rw [hc]⟩
          | some nodes =>
              rcases ih ⟨r, hmem, hq⟩ with ⟨e, he⟩
              exact ⟨e, by unfold analyze; rw [hc, he]⟩
  refine ⟨herr, ?_⟩
  rcases herr with ⟨e, he⟩
  intro findings hok
  rw [he] at hok
  exact Except.noConfusion hok

/-- Witness for C9: a one-rule set on a grammar rejecting every query. -/
theorem C9_query_failure_fatal_witness :
    ∃ e, analyze failGrammar "" [badRule] = Except.error e :=
  (C9_query_failure_fatal [badRule] failGrammar "" ⟨badRule, by simp, rfl⟩).1

/-- C10: the `missing_docs` match filter accepts a matched node exactly
when the text preceding the match's start offset contains the marker
`pub fn`; matches without that marker before them are suppressed. -/
theorem C10_missing_docs_marker (node : Node) (source : String) :
    should_report "missing_docs" node source = true ↔
      ∃ l r, source.data.take node.start_byte = l ++ ("pub fn".data) ++ r := by
  show containsChars (source.data.take node.start_byte) ("pub fn".data) = true ↔ _
  exact containsChars_iff _ _

/-- Witness for C10: a node preceded by `pub fn `. -/
theorem C10_missing_docs_marker_witness :
    should_report "missing_docs" docNode docSource = true :=
  (C10_missing_docs_marker docNode docSource).mpr ⟨[], [' '], by decide⟩

/-- C1 counterexample: with exactly one Error Finding of score_impact
-6.0 on a 100-line source, the overall score is 4.0, but the rating is
"Poor" (the band `[4.0, 5.9]` matches 4.0), not "Critical" as claimed. -/
theorem C1_error_scenario_counterexample :
    (calculate_score [errorFinding] source100).overall_score = 4.0
    ∧ (calculate_score [errorFinding] source100).rating = "Poor"
    ∧ (calculate_score [errorFinding] source100).rating ≠ "Critical" := by
  have hlc : rustLinesCount source100 = 100 := by decide
  have htot : specTotal [errorFinding] = 6 := by
    simp [specTotal, errorFinding_abs]
  have hscore : (calculate_score [errorFinding] source100).overall_score = 4.0 := by
    rw [overall_score_eq, hlc, htot]
    norm_num [sizeFactorOf, roundTenth, roundAway]
  have hrating : (calculate_score [errorFinding] source100).rating = "Poor" := by
    rw [rating_eq, hscore]
    norm_num [get_rating_and_summary]
  exact ⟨hscore, hrating, by rw [hrating]; decide⟩

/-- C1 (amended): an analysis run producing exactly one Error Finding with
score_impact -6.0 (base -3.0 times weight 2.0) and no other Findings, on a
100-line source, gets overall_score 4.0, rating "Poor", and a summary that
mentions "1 critical errors". -/
theorem C1_error_scenario :
    (calculate_score [errorFinding] source100).overall_score = 4.0
    ∧ (calculate_score [errorFinding] source100).rating = "Poor"
    ∧ containsChars (calculate_score [errorFinding] source100).summary.data
        ("1 critical errors".data) = true := by
  have hlc : rustLinesCount source100 = 100 := by decide
  have htot : specTotal [errorFinding] = 6 := by
    simp [specTotal, errorFinding_abs]
  have hscore : (calculate_score [errorFinding] source100).overall_score = 4.0 := by
    rw [overall_score_eq, hlc, htot]
    norm_num [sizeFactorOf, roundTenth, roundAway]
  have hrating : (calculate_score [errorFinding] source100).rating = "Poor" := by
    rw [rating_eq, hscore]
    norm_num [get_rating_and_summary]
  have herr : (calculate_score [errorFinding] source100).breakdown.errors = 1 := by
    rw [breakdown_eq]
    norm_num [sevCount, errorFinding]
  have hsummary : (calculate_score [errorFinding] source100).summary =
      "Code has 1 critical errors that need immediate attention" := by
    rw [summary_eq]
    simp only [get_rating_and_summary, herr]
    norm_num
    decide
  exact ⟨hscore, hrating, by rw [hsummary]; decide⟩

/-- C3: the size factor is `1 + min((line_count - 200)/1000, 0.3)` for
files over 200 lines (with size_bonus = leniency times the info and style
deductions), 0.9 under 50 lines and 1.0 otherwise (size_bonus 0 in both);
the overall score divides the total deduction by this factor; at 10,000
lines the factor caps at exactly 1.3. -/
theorem C3_size_factor (results : List AnalysisResult) (source : String) :
    ((calculate_score results source).breakdown.size_bonus =
      if 200 < rustLinesCount source then
        min (((rustLinesCount source : ℚ) - 200.0) / 1000.0) 0.3
          * (sevDeduction Severity.Info results + sevDeduction Severity.Style results)
      else 0)
    ∧ (calculate_score results source).overall_score =
        roundTenth (max (10 - specTotal results / sizeFactorOf (rustLinesCount source)) 0)
    ∧ sizeFactorOf 10000 = 1.3 := by
  refine ⟨?_, overall_score_eq results source, ?_⟩
  · rw [breakdown_eq]
  · norm_num [sizeFactorOf, min_def]

/-- C4: the overall score always lies in `[0, max_score]` with `max_score`
the constant 10.0; in particular it is clamped at 0.0 for twenty Error
Findings (total deduction 120) on a 100-line source. -/
theorem C4_score_bounded (results : List AnalysisResult) (source : String) :
    0 ≤ (calculate_score results source).overall_score
    ∧ (calculate_score results source).overall_score ≤ (calculate_score results source).max_score
    ∧ (calculate_score results source).max_score = 10.0
    ∧ (calculate_score twentyErrors source100).overall_score = 0.0 := by
  have hmax : (calculate_score results source).max_score = 10.0 := rfl
  have hadj : 0 ≤ specTotal results / sizeFactorOf (rustLinesCount source) :=
    div_nonneg (specTotal_nonneg results) (sizeFactorOf_pos _).le
  refine ⟨?_, ?_, hmax, ?_⟩
  · rw [overall_score_eq]
    exact roundTenth_nonneg _ (le_max_right _ _)
  · rw [overall_score_eq, hmax]
    rw [show (10.0 : ℚ) = 10 by norm_num]
    apply roundTenth_le_ten
    · exact le_max_right _ _
    · refine max_le (by linarith) (by norm_num)
  · have hlc : rustLinesCount source100 = 100 := by decide
    have htot : specTotal twentyErrors = 120 := by
      simp [specTotal, twentyErrors, List.map_replicate, errorFinding_abs,
        List.sum_replicate]
      norm_num
    rw [overall_score_eq, hlc, htot]
    norm_num [sizeFactorOf, roundTenth, roundAway, max_def]

/-- C5: appending any Finding to the list never increases the overall
score, for a fixed source text. -/
theorem C5_score_monotone (results : List AnalysisResult) (source : String)
    (f : AnalysisResult) :
    (calculate_score (results ++ [f]) source).overall_score ≤
      (calculate_score results source).overall_score := by
  rw [overall_score_eq, overall_score_eq]
  have hsf := sizeFactorOf_pos (rustLinesCount source)
  have habs : 0 ≤ |f.score_impact| := abs_nonneg _
  have hD : specTotal results / sizeFactorOf (rustLinesCount source)
      ≤ specTotal (results ++ [f]) / sizeFactorOf (rustLinesCount source) := by
    gcongr
    rw [specTotal_append]
    linarith
  apply roundTenth_mono
  · exact le_max_right _ _
  · refine max_le_max ?_ le_rfl
    linarith

/-- C6: the one-line summary is a first-match-wins ladder over the raw
breakdown counts, evaluated before any rating logic: an Error forces the
"N critical errors" message; else more than five warnings the
multiple-warnings message; else more than ten info issues the cleanup
message; else the rounded score picks the excellent (≥ 9.0), good (≥ 7.5)
or generic message. Six weight-1.0 Warning Findings on a 100-line source
give overall score 1.0 with the multiple-warnings summary. -/
theorem C6_summary_ladder (s : ℚ) (b : ScoreBreakdown) :
    (0 < b.errors → (get_rating_and_summary s b).2 =
      "Code has " ++ toString b.errors ++ " critical errors that need immediate attention")
    ∧ (b.errors = 0 → 5 < b.warnings → (get_rating_and_summary s b).2 =
      "Multiple warnings detected - consider addressing them")
    ∧ (b.errors = 0 → b.warnings ≤ 5 → 10 < b.info_issues → (get_rating_and_summary s b).2 =
      "Many minor issues found - good opportunity for cleanup")
    ∧ (b.errors = 0 → b.warnings ≤ 5 → b.info_issues ≤ 10 → 9.0 ≤ s →
      (get_rating_and_summary s b).2 = "Excellent code quality with minimal issues")
    ∧ (b.errors = 0 → b.warnings ≤ 5 → b.info_issues ≤ 10 → s < 9.0 → 7.5 ≤ s →
      (get_rating_and_summary s b).2 = "Good code quality with room for minor improvements")
    ∧ (b.errors = 0 → b.warnings ≤ 5 → b.info_issues ≤ 10 → s < 7.5 →
      (get_rating_and_summary s b).2 = "Code needs improvement in several areas")
    ∧ (calculate_score sixWarnings source100).overall_score = 1.0
    ∧ (calculate_score sixWarnings source100).summary =
      "Multiple warnings detected - consider addressing them" := by
  have hlc : rustLinesCount source100 = 100 := by decide
  have htot : specTotal sixWarnings = 9 := by
    simp [specTotal, sixWarnings, warnFinding_abs]
    norm_num
  have hscore : (calculate_score sixWarnings source100).overall_score = 1.0 := by
    rw [overall_score_eq, hlc, htot]
    norm_num [sizeFactorOf, roundTenth, roundAway]
  have herr : (calculate_score sixWarnings source100).breakdown.errors = 0 := by
    rw [breakdown_eq]
    simp [sevCount, sixWarnings, warnFinding]
  have hw : (calculate_score sixWarnings source100).breakdown.warnings = 6 := by
    rw [breakdown_eq]
    simp [sevCount, sixWarnings, warnFinding]
  have hsummary : (calculate_score sixWarnings source100).summary =
      "Multiple warnings detected - consider addressing them" := by
    rw [summary_eq]
    simp only [get_rating_and_summary, herr, hw]
    norm_num
  refine ⟨?_, ?_, ?_, ?_, ?_, ?_, hscore, hsummary⟩
  · intro h
    simp only [get_rating_and_summary]
    rw [if_pos h]
  · intro h0 hw5
    simp only [get_rating_and_summary]
    rw [if_neg (by omega), if_pos hw5]
  · intro h0 hw5 hi
    simp only [get_rating_and_summary]
    rw [if_neg (by omega), if_neg (by omega), if_pos hi]
  · intro h0 hw5 hi hs
    simp only [get_rating_and_summary]
    rw [if_neg (by omega), if_neg (by omega), if_neg (by omega), if_pos hs]
  · intro h0 hw5 hi hs9 hs75
    simp only [get_rating_and_summary]
    rw [if_neg (by omega), if_neg (by omega), if_neg (by omega),
      if_neg (not_le.mpr hs9), if_pos hs75]
  · intro h0 hw5 hi hs
    simp only [get_rating_and_summary]
    rw [if_neg (by omega), if_neg (by omega), if_neg (by omega),
      if_neg (by norm_num; linarith), if_neg (not_le.mpr hs)]

/-- Witness for C6: the ladder applied to a breakdown with one error. -/
theorem C6_summary_ladder_witness :
    (get_rating_and_summary 4.0 { emptyBreakdown with errors := 1 }).2 =
      "Code has " ++ toString ({ emptyBreakdown with errors := 1 } : ScoreBreakdown).errors
        ++ " critical errors that need immediate attention" :=
  (C6_summary_ladder 4.0 { emptyBreakdown with errors := 1 }).1 (by norm_num [emptyBreakdown])

/-- C8: every breakdown count equals the number of Findings of that
severity, every deduction sum equals the sum of `|score_impact|` over the
Findings of that severity, and total_issues is the length of the Finding
list. -/
theorem C8_breakdown_invariant (results : List AnalysisResult) (source : String) :
    (calculate_score results source).breakdown.errors = sevCount Severity.Error results
    ∧ (calculate_score results source).breakdown.warnings = sevCount Severity.Warning results
    ∧ (calculate_score results source).breakdown.info_issues = sevCount Severity.Info results
    ∧ (calculate_score results source).breakdown.style_issues = sevCount Severity.Style results
    ∧ (calculate_score results source).breakdown.error_deduction
        = sevDeduction Severity.Error results
    ∧ (calculate_score results source).breakdown.warning_deduction
        = sevDeduction Severity.Warning results
    ∧ (calculate_score results source).breakdown.info_deduction
        = sevDeduction Severity.Info results
    ∧ (calculate_score results source).breakdown.style_deduction
        = sevDeduction Severity.Style results
    ∧ (calculate_score results source).total_issues = results.length := by
  refine ⟨?_, ?_, ?_, ?_, ?_, ?_, ?_, ?_, rfl⟩ <;> rw [breakdown_eq]

end Treescan
